import Mathlib

/-!
Verification of the pantalaimon sync/trust/decrypt orchestration core
(`src/pantalaimon/client.py`, class `PanClient`) against its specification.

The embedding is shallow: Python dictionaries of the decryption pipeline are
modelled as ordered association lists over a small JSON-like value type
(Python 3.7+ dictionaries preserve insertion order, and `dict.update`
overwrites an existing key in place while appending fresh keys), in-place
mutation becomes explicit state passing, and a raised exception becomes an
explicit result constructor that carries the state of the mutated structure
at the moment the exception propagates.  The sync loop of `PanClient.loop`
is modelled as a per-iteration transition function that records the awaited
operations of the iteration as a trace of actions.
-/

/-- A JSON-like value, the model of the Python payload dictionaries that the
decryption pipeline walks.  Objects are ordered association lists, matching
the insertion-order semantics of Python dictionaries. -/
inductive JVal where
  | str (s : String)
  | bool (b : Bool)
  | num (n : Nat)
  | obj (fields : List (String × JVal))
  | arr (elems : List JVal)

/-- Lookup of a key in an ordered association list, the model of Python
dictionary subscription when the key is present (`d[k]`) and of the
membership test (`k in d`). -/
def getKey : List (String × JVal) → String → Option JVal
  | [], _ => none
  | (k', v) :: rest, k => if k' = k then some v else getKey rest k

/-- Polymorphic association-list lookup, used for the client's room map. -/
def lookupL {α : Type} : List (String × α) → String → Option α
  | [], _ => none
  | (k', v) :: rest, k => if k' = k then some v else lookupL rest k

/-- Assignment `d[k] = v` on an ordered association list: an existing key is
overwritten in place, a fresh key is appended at the end, exactly as a Python
dictionary behaves. -/
def setKey : List (String × JVal) → String → JVal → List (String × JVal)
  | [], k, v => [(k, v)]
  | (k', v') :: rest, k, v =>
      if k' = k then (k, v) :: rest else (k', v') :: setKey rest k v

/-- Python `d.update(other)`: every key/value pair of `other` is assigned
into `d`, in the iteration order of `other`. -/
def updateDict (d other : List (String × JVal)) : List (String × JVal) :=
  other.foldl (fun acc kv => setKey acc kv.1 kv.2) d

/-- The parsed form of a megolm-encrypted room event, the fields of nio's
`MegolmEvent` that `PanClient` reads (`client.py` lines 75-86 and 259-267). -/
structure MegolmEv where
  sender : String
  device_id : String
  session_id : String
  room_id : Option String
deriving Repr, DecidableEq

/-- Whether a JSON value is exactly the string `"m.room.encrypted"`; the model
of the Python comparison `event["type"] != "m.room.encrypted"` in
`decrypt_messages_body` (a non-string value compares unequal). -/
def isEncryptedStr : JVal → Bool
  | JVal.str s => s == "m.room.encrypted"
  | _ => false

/-- Whether an event dictionary carries the encrypted-room-event type. -/
def typeIsEncrypted (d : List (String × JVal)) : Bool :=
  match getKey d "type" with
  | some v => isEncryptedStr v
  | none => false

/-- Whether an event payload is a non-encrypted event: either not an object
or an object whose type field is not the encrypted-room-event type. -/
def eventNonEncrypted : JVal → Bool
  | JVal.obj ed => !(typeIsEncrypted ed)
  | e => (fun _ => true) e

/-- Modelled from the spec: nio's `RoomEncryptedEvent.parse_event`, which is
not part of this repository.  The spec describes it as parsing the payload as
an encrypted room event and yielding the expected encrypted-message kind
(`MegolmEvent`) only for a well-formed megolm payload: type
`m.room.encrypted`, algorithm `m.megolm.v1.aes-sha2`, and the sender, device,
session and ciphertext fields present; anything else is not of the expected
kind, and `pan_decrypt_event` then returns failure without mutating the
payload. -/
def parse_event (d : List (String × JVal)) : Option MegolmEv :=
  match getKey d "type" with
  | some (JVal.str t) =>
    if t = "m.room.encrypted" then
      match getKey d "content", getKey d "sender" with
      | some (JVal.obj c), some (JVal.str sndr) =>
        match getKey c "algorithm", getKey c "sender_key", getKey c "session_id",
              getKey c "device_id", getKey c "ciphertext" with
        | some (JVal.str alg), some (JVal.str _), some (JVal.str sid),
          some (JVal.str dev), some (JVal.str _) =>
          if alg = "m.megolm.v1.aes-sha2" then
            some { sender := sndr, device_id := dev, session_id := sid,
                   room_id := match getKey d "room_id" with
                              | some (JVal.str r) => some r
                              | _ => none }
          else none
        | _, _, _, _, _ => none
      | _, _ => none
    else none
  | _ => none

/-- Line 266-267 of `client.py`: a parsed event with no room identifier has
it filled in from the caller's hint. -/
def fill_room_id (ev : MegolmEv) (room_id : Option String) : MegolmEv :=
  if ev.room_id = none then { ev with room_id := room_id } else ev

/-- The decrypted event returned by nio's `decrypt_event`: `source` is the
plaintext event dictionary merged into the payload, `verified` the engine's
trust verdict. -/
structure DecryptedEv where
  source : List (String × JVal)
  verified : Bool

/-- Outcome of one call to the Crypto Engine's `decrypt_event`: success with
a decrypted event, or an `EncryptionError` carrying a message. -/
inductive DecryptOutcome where
  | ok (de : DecryptedEv)
  | err (msg : String)

/-- Result of running a fragment of the (in-place, exception-throwing)
Python decryption pipeline: a normal return carrying the value and the final
state of the mutated structure, or a propagating exception carrying the state
of the structure at the moment the exception escapes. -/
inductive PanRes (σ : Type) (α : Type) where
  | ret (v : α) (st : σ)
  | exn (msg : String) (st : σ)

/-- The state component of a pipeline result, whether it returned or raised. -/
def PanRes.state {σ α : Type} : PanRes σ α → σ
  | PanRes.ret _ st => st
  | PanRes.exn _ st => st

/-- PanClient.unable_to_decrypt (`client.py` lines 52-62): the fixed
placeholder room event signalling that the message could not be decrypted. -/
def unable_to_decrypt : List (String × JVal) :=
  [("type", JVal.str "m.room.message"),
   ("content", JVal.obj
      [("msgtype", JVal.str "m.text"),
       ("body", JVal.str ("** Unable to decrypt: The sender's device has not " ++
                          "sent us the keys for this message. **"))])]

/-- PanClient.pan_decrypt_event (`client.py` lines 252-287).  The Crypto
Engine's `decrypt_event` is passed in as the oracle `decrypt`.  On a parse
that is not a megolm event the payload is returned unchanged with failure; on
successful decryption the plaintext source is merged in and the `decrypted`
and `verified` keys set; on an `EncryptionError`, with `ignore_failures` the
payload is overwritten with the placeholder and failure returned, without it
the exception propagates with the payload untouched. -/
def pan_decrypt_event (decrypt : MegolmEv → DecryptOutcome)
    (event_dict : List (String × JVal)) (room_id : Option String)
    (ignore_failures : Bool) : PanRes (List (String × JVal)) Bool :=
  match parse_event event_dict with
  | none => PanRes.ret false event_dict
  | some ev =>
    match decrypt (fill_room_id ev room_id) with
    | DecryptOutcome.ok de =>
        let d1 := updateDict event_dict de.source
        let d2 := setKey d1 "decrypted" (JVal.bool true)
        let d3 := setKey d2 "verified" (JVal.bool de.verified)
        PanRes.ret true d3
    | DecryptOutcome.err msg =>
        if ignore_failures then
          PanRes.ret false (updateDict event_dict unable_to_decrypt)
        else
          PanRes.exn msg event_dict

/-- The per-event body of the loop of `decrypt_messages_body` (`client.py`
lines 303-312): events without a type, or whose type is not
`m.room.encrypted`, are skipped; encrypted events are decrypted in place with
the default arguments (`room_id=None`, `ignore_failures=True`, under which
`pan_decrypt_event` never raises).  A non-object event is not of the expected
encrypted-message kind and is left as it is. -/
def decrypt_messages_chunk (decrypt : MegolmEv → DecryptOutcome) :
    List JVal → List JVal
  | [] => []
  | e :: rest =>
    (match e with
     | JVal.obj ed =>
       match getKey ed "type" with
       | none => e
       | some t =>
         if isEncryptedStr t then
           match pan_decrypt_event decrypt ed none true with
           | PanRes.ret _ d => JVal.obj d
           | PanRes.exn _ d => JVal.obj d
         else e
     | _ => e) :: decrypt_messages_chunk decrypt rest

/-- PanClient.decrypt_messages_body (`client.py` lines 289-314): a body
without a `chunk` key is returned unchanged; otherwise each event of the
chunk is processed in place. -/
def decrypt_messages_body (decrypt : MegolmEv → DecryptOutcome)
    (body : List (String × JVal)) : List (String × JVal) :=
  match getKey body "chunk" with
  | none => body
  | some (JVal.arr events) =>
      setKey body "chunk" (JVal.arr (decrypt_messages_chunk decrypt events))
  | some _ => body

/-- The inner event loop of `decrypt_sync_body` (`client.py` lines 337-338):
each timeline event is decrypted in place with the room as hint; with
`ignore_failures=False` an `EncryptionError` propagates, leaving the already
processed events mutated and the rest untouched. -/
def decrypt_room_events (decrypt : MegolmEv → DecryptOutcome) (room_id : String)
    (ignore_failures : Bool) : List JVal → PanRes (List JVal) Unit
  | [] => PanRes.ret () []
  | e :: rest =>
    match e with
    | JVal.obj ed =>
      match pan_decrypt_event decrypt ed (some room_id) ignore_failures with
      | PanRes.ret _ d =>
        (match decrypt_room_events decrypt room_id ignore_failures rest with
         | PanRes.ret u rest2 => PanRes.ret u (JVal.obj d :: rest2)
         | PanRes.exn m rest2 => PanRes.exn m (JVal.obj d :: rest2))
      | PanRes.exn m d => PanRes.exn m (JVal.obj d :: rest)
    | _ =>
      (match decrypt_room_events decrypt room_id ignore_failures rest with
       | PanRes.ret u rest2 => PanRes.ret u (e :: rest2)
       | PanRes.exn m rest2 => PanRes.exn m (e :: rest2))

/-- One room of the client's `self.rooms` map; only the fields `PanClient`
reads are modelled. -/
structure RoomState where
  encrypted : Bool
  display_name : String
deriving Repr, DecidableEq

/-- The per-room body of `decrypt_sync_body` (`client.py` lines 326-338): a
room missing from the client's room map raises `KeyError`, which is caught
and the room skipped; a known unencrypted room is skipped; otherwise every
timeline event is decrypted in place.  The `timeline`/`events` subscripts are
outside the `try` block, so a malformed room dictionary raises out of the
whole call (`KeyError` for a missing key, `TypeError` for a wrong shape). -/
def sync_room (decrypt : MegolmEv → DecryptOutcome)
    (rooms : List (String × RoomState)) (ignore_failures : Bool)
    (room_id : String) (room_val : JVal) : PanRes JVal Unit :=
  match lookupL rooms room_id with
  | none => PanRes.ret () room_val
  | some room =>
    if !room.encrypted then PanRes.ret () room_val
    else
      match room_val with
      | JVal.obj rd =>
        match getKey rd "timeline" with
        | some (JVal.obj tl) =>
          match getKey tl "events" with
          | some (JVal.arr evs) =>
            (match decrypt_room_events decrypt room_id ignore_failures evs with
             | PanRes.ret _ evs2 =>
                 PanRes.ret () (JVal.obj (setKey rd "timeline"
                   (JVal.obj (setKey tl "events" (JVal.arr evs2)))))
             | PanRes.exn m evs2 =>
                 PanRes.exn m (JVal.obj (setKey rd "timeline"
                   (JVal.obj (setKey tl "events" (JVal.arr evs2))))))
          | some _ => PanRes.exn "TypeError" room_val
          | none => PanRes.exn "KeyError" room_val
        | some _ => PanRes.exn "TypeError" room_val
        | none => PanRes.exn "KeyError" room_val
      | _ => PanRes.exn "TypeError" room_val

/-- The loop over the joined rooms of `decrypt_sync_body` (`client.py` line
326): rooms are processed in order; an exception from one room propagates,
leaving the earlier rooms mutated and the later ones untouched. -/
def sync_rooms (decrypt : MegolmEv → DecryptOutcome)
    (rooms : List (String × RoomState)) (ignore_failures : Bool) :
    List (String × JVal) → PanRes (List (String × JVal)) Unit
  | [] => PanRes.ret () []
  | (rid, rv) :: rest =>
    match sync_room decrypt rooms ignore_failures rid rv with
    | PanRes.ret _ rv2 =>
      (match sync_rooms decrypt rooms ignore_failures rest with
       | PanRes.ret u rest2 => PanRes.ret u ((rid, rv2) :: rest2)
       | PanRes.exn m rest2 => PanRes.exn m ((rid, rv2) :: rest2))
    | PanRes.exn m rv2 => PanRes.exn m ((rid, rv2) :: rest)

/-- PanClient.decrypt_sync_body (`client.py` lines 316-340).  The subscripts
`body["rooms"]["join"]` are unguarded, so a body without a `rooms` key, or
whose rooms value lacks a `join` key, raises `KeyError` before any room is
processed (`TypeError` when the value has the wrong shape); otherwise every
joined room is processed in place and the body returned. -/
def decrypt_sync_body (decrypt : MegolmEv → DecryptOutcome)
    (rooms : List (String × RoomState)) (body : List (String × JVal))
    (ignore_failures : Bool) :
    PanRes (List (String × JVal)) (List (String × JVal)) :=
  match getKey body "rooms" with
  | some (JVal.obj ro) =>
    match getKey ro "join" with
    | some (JVal.obj join) =>
      (match sync_rooms decrypt rooms ignore_failures join with
       | PanRes.ret _ join2 =>
           let body2 := setKey body "rooms" (JVal.obj (setKey ro "join" (JVal.obj join2)))
           PanRes.ret body2 body2
       | PanRes.exn m join2 =>
           PanRes.exn m (setKey body "rooms" (JVal.obj (setKey ro "join" (JVal.obj join2)))))
    | some _ => PanRes.exn "TypeError" body
    | none => PanRes.exn "KeyError" body
  | some _ => PanRes.exn "TypeError" body
  | none => PanRes.exn "KeyError" body

/-- A transport-class network exception raised by the sync call (`client.py`
lines 214-218). -/
inductive NetErr where
  | clientProxyConn
  | serverDisconnected
  | connRefused
deriving Repr, DecidableEq

/-- Outcome of the `self.sync(...)` call of one loop iteration: a response
carrying its transport status, or a raised network exception. -/
inductive SyncResult where
  | ok (status : Nat)
  | netFail (e : NetErr)
deriving Repr, DecidableEq

/-- One awaited or state-changing operation of a loop iteration, recorded in
the iteration's trace in execution order. -/
inductive Act where
  | syncCall
  | sleepSecs (n : Nat)
  | sendToDeviceMessages
  | gatherVerifTasks (ts : List Nat)
  | logProtocolError
  | gatherKeyReqTasks (ts : List Nat)
  | keysUpload
  | keysQuery
  | verifyDevices
  | queuePut
  | setSynced
  | clearSynced
  | loopStopMark
deriving Repr, DecidableEq

/-- Control outcome of one pass through the `while True` body: continue with
the next iteration, or break out of the loop. -/
inductive Ctl where
  | cont
  | brk
deriving Repr, DecidableEq

/-- The suspension points of one loop iteration, where a cancellation request
can be observed (`client.py` lines 165, 175, 178, 181, 187, 190, 193, 200 and
220). -/
inductive Susp where
  | atSync
  | atStatusSleep
  | atSendToDevice
  | atGatherVerif
  | atGatherKeyReq
  | atKeysUpload
  | atKeysQuery
  | atQueuePut
  | atBackoffSleep
deriving Repr, DecidableEq

/-- The environment of one loop iteration: what the transport and the Crypto
Engine answer during it. -/
structure SyncEnv where
  syncResult : SyncResult
  verifGatherRaises : Bool
  should_upload_keys : Bool
  should_query_keys : Bool
  queryIsKeysQueryResponse : Bool
  responseIsSyncResponse : Bool
deriving Repr, DecidableEq

/-- The loop-relevant state of a `PanClient`: the lifecycle flags, the two
asyncio events and the two task lists (tasks are identified by numbers). -/
structure LoopState where
  loop_running : Bool
  loop_stopped : Bool
  synced : Bool
  key_verificatins_tasks : List Nat
  key_request_tasks : List Nat
deriving Repr, DecidableEq

/-- PanClient._loop_stop (`client.py` lines 225-227): clear the running flag
and set the loop-stopped event. -/
def loop_stop_update (s : LoopState) : LoopState :=
  { s with loop_running := false, loop_stopped := true }

/-- The loop prologue (`client.py` lines 153-155): mark the loop running and
clear both events. -/
def loop_start (s : LoopState) : LoopState :=
  { s with loop_running := true, loop_stopped := false, synced := false }

/-- PanClient.loop_stop (`client.py` lines 229-235): with no running task it
returns at once; otherwise it cancels the task and awaits the loop-stopped
event, so it can return only in a state where that event is set. -/
def loop_stop_returns_in (taskRunning : Bool) (s : LoopState) : Bool :=
  if taskRunning then s.loop_stopped else true

/-- The tail of a successful iteration (`client.py` lines 202-207): the
`isinstance(response, SyncResponse)` check is a no-op (`pass`), then the
synced event is set and immediately cleared. -/
def finishPhase (acts : List Act) (s : LoopState) : List Act × Ctl × LoopState :=
  (acts ++ [Act.setSynced, Act.clearSynced], Ctl.cont, { s with synced := false })

/-- The key-query step (`client.py` lines 192-200): when the engine signals a
query is due, await it; on a `KeysQueryResponse`, verify the changed devices
and publish a `DevicesMessage` on the queue.  A cancellation observed at the
query or at the queue put stops the loop. -/
def queryPhase (env : SyncEnv) (cancel : Option Susp) (acts : List Act)
    (s : LoopState) : List Act × Ctl × LoopState :=
  if env.should_query_keys then
    if cancel = some Susp.atKeysQuery then
      (acts ++ [Act.loopStopMark], Ctl.brk, loop_stop_update s)
    else
      if env.queryIsKeysQueryResponse then
        if cancel = some Susp.atQueuePut then
          (acts ++ [Act.keysQuery, Act.verifyDevices, Act.loopStopMark],
           Ctl.brk, loop_stop_update s)
        else
          finishPhase (acts ++ [Act.keysQuery, Act.verifyDevices, Act.queuePut]) s
      else
        finishPhase (acts ++ [Act.keysQuery]) s
  else
    finishPhase acts s

/-- The key-upload step (`client.py` lines 189-190). -/
def uploadPhase (env : SyncEnv) (cancel : Option Susp) (acts : List Act)
    (s : LoopState) : List Act × Ctl × LoopState :=
  if env.should_upload_keys then
    if cancel = some Susp.atKeysUpload then
      (acts ++ [Act.loopStopMark], Ctl.brk, loop_stop_update s)
    else
      queryPhase env cancel (acts ++ [Act.keysUpload]) s
  else
    queryPhase env cancel acts s

/-- One pass through the body of the `while True` loop of PanClient.loop
(`client.py` lines 159-223), as a function of the iteration's environment,
an optional cancellation request observed at a given suspension point, and
the client state.  It yields the trace of operations the iteration performed,
whether the loop continues or breaks, and the new state.  A `CancelledError`
observed at any point inside the `try` block is caught at line 209 and a
`CancelledError` during the backoff sleep at line 221; both run `_loop_stop`
and break.  A network exception from the sync call leads to the 5-second
backoff sleep and `continue`s; so does a non-200 transport status.  On the
success path the verification tasks are gathered (a `LocalProtocolError` is
logged and swallowed) and their list cleared; the key-request tasks are
gathered but their list is never cleared. -/
def iteration (env : SyncEnv) (cancel : Option Susp) (s : LoopState) :
    List Act × Ctl × LoopState :=
  if cancel = some Susp.atSync then
    ([Act.loopStopMark], Ctl.brk, loop_stop_update s)
  else
    match env.syncResult with
    | SyncResult.netFail _ =>
      if cancel = some Susp.atBackoffSleep then
        ([Act.loopStopMark], Ctl.brk, loop_stop_update s)
      else
        ([Act.sleepSecs 5], Ctl.cont, s)
    | SyncResult.ok status =>
      if status ≠ 200 then
        if cancel = some Susp.atStatusSleep then
          ([Act.syncCall, Act.loopStopMark], Ctl.brk, loop_stop_update s)
        else
          ([Act.syncCall, Act.sleepSecs 5], Ctl.cont, s)
      else if cancel = some Susp.atSendToDevice then
        ([Act.syncCall, Act.loopStopMark], Ctl.brk, loop_stop_update s)
      else if cancel = some Susp.atGatherVerif then
        ([Act.syncCall, Act.sendToDeviceMessages, Act.loopStopMark],
         Ctl.brk, loop_stop_update s)
      else
        let acts0 := [Act.syncCall, Act.sendToDeviceMessages,
                      Act.gatherVerifTasks s.key_verificatins_tasks] ++
                     (if env.verifGatherRaises then [Act.logProtocolError] else [])
        let s1 := { s with key_verificatins_tasks := [] }
        if cancel = some Susp.atGatherKeyReq then
          (acts0 ++ [Act.loopStopMark], Ctl.brk, loop_stop_update s1)
        else
          uploadPhase env cancel
            (acts0 ++ [Act.gatherKeyReqTasks s1.key_request_tasks]) s1

/-- Whether an iteration under environment `env` reaches the suspension point
`p` when no cancellation interrupts it earlier: the sync call is always
reached; the backoff sleep only after a network exception; the status sleep
only on a non-200 status; the post-processing points only on a 200 status,
the conditional ones only when their guards hold. -/
def reaches (env : SyncEnv) (p : Susp) : Bool :=
  match p, env.syncResult with
  | Susp.atSync, _ => true
  | Susp.atBackoffSleep, SyncResult.netFail _ => true
  | Susp.atStatusSleep, SyncResult.ok st => st != 200
  | Susp.atSendToDevice, SyncResult.ok st => st == 200
  | Susp.atGatherVerif, SyncResult.ok st => st == 200
  | Susp.atGatherKeyReq, SyncResult.ok st => st == 200
  | Susp.atKeysUpload, SyncResult.ok st => st == 200 && env.should_upload_keys
  | Susp.atKeysQuery, SyncResult.ok st => st == 200 && env.should_query_keys
  | Susp.atQueuePut, SyncResult.ok st =>
      st == 200 && env.should_query_keys && env.queryIsKeysQueryResponse
  | _, _ => false

/-- A transport fault of one iteration: a raised network exception or a
non-200 transport status. -/
def transportFault (env : SyncEnv) : Prop :=
  (∃ e, env.syncResult = SyncResult.netFail e) ∨
  (∃ st, env.syncResult = SyncResult.ok st ∧ st ≠ 200)

/-- Whether an action belongs to the post-processing of a successful sync:
message dispatch, task gathering, key upload or query, device verification,
queue publication, or the synced signal. -/
def isPostProcessing : Act → Bool
  | Act.sendToDeviceMessages => true
  | Act.gatherVerifTasks _ => true
  | Act.logProtocolError => true
  | Act.gatherKeyReqTasks _ => true
  | Act.keysUpload => true
  | Act.keysQuery => true
  | Act.verifyDevices => true
  | Act.queuePut => true
  | Act.setSynced => true
  | Act.clearSynced => true
  | _ => false

/-- All key-request tasks gathered anywhere in a trace, in order. -/
def krAwaited (tr : List Act) : List Nat :=
  tr.foldr (fun a acc => match a with
                         | Act.gatherKeyReqTasks ts => ts ++ acc
                         | _ => acc) []

/-- The key-request bookkeeping of a `PanClient`: the session identifiers
with an outstanding key request, and the list of spawned request tasks (each
task identified by the event it re-requests keys for). -/
structure ReqState where
  outgoing_key_requests : List String
  key_request_tasks : List MegolmEv
deriving Repr, DecidableEq

/-- PanClient.undecrypted_event_cb (`client.py` lines 75-86): when the
event's session identifier has no outstanding key request, spawn a
`request_room_key` task and track it.  `request_room_key` itself is nio code
not under this repository; modelled from the spec, which describes the
outstanding-key-requests registry as tracking every issued re-request so that
duplicates referencing the same session identifier before the request
resolves are suppressed: spawning the task registers its session
identifier. -/
def undecrypted_event_cb (s : ReqState) (event : MegolmEv) : ReqState :=
  if event.session_id ∈ s.outgoing_key_requests then s
  else
    { outgoing_key_requests := s.outgoing_key_requests ++ [event.session_id],
      key_request_tasks := s.key_request_tasks ++ [event] }

/-- Outcome of one call to nio's `super().encrypt`: ciphertext, or a raised
`GroupEncryptionError`. -/
inductive EncResult where
  | ok (ciphertext : String)
  | groupEncryptionError
deriving Repr, DecidableEq

/-- What a call to PanClient.encrypt did: whether `share_group_session` was
awaited, how many `super().encrypt` attempts were made, and the final
outcome (an error here is one that propagated to the caller). -/
structure EncTrace where
  shared_group_session : Bool
  attempts : Nat
  result : EncResult
deriving Repr, DecidableEq

/-- PanClient.encrypt (`client.py` lines 237-250): try `super().encrypt`; on
a `GroupEncryptionError` share the group session for the room and retry the
encryption exactly once, with nothing catching a failure of the retry.  The
two `super().encrypt` outcomes (before and after the share) are passed in as
the oracle values `first` and `second`; `share_group_session` is nio code,
recorded in the trace. -/
def encrypt (first second : EncResult) : EncTrace :=
  match first with
  | EncResult.ok c =>
      { shared_group_session := false, attempts := 1, result := EncResult.ok c }
  | EncResult.groupEncryptionError =>
      { shared_group_session := true, attempts := 2, result := second }

lemma getKey_setKey_self (d : List (String × JVal)) (k : String) (v : JVal) :
    getKey (setKey d k v) k = some v := by
  induction d with
  | nil => simp [setKey, getKey]
  | cons hd tl ih =>
    obtain ⟨k', v'⟩ := hd
    by_cases h : k' = k <;> simp [setKey, getKey, h, ih]

lemma getKey_setKey_ne (d : List (String × JVal)) {k' k : String} (v : JVal)
    (h : k' ≠ k) : getKey (setKey d k' v) k = getKey d k := by
  induction d with
  | nil => simp [setKey, getKey, h]
  | cons hd tl ih =>
    obtain ⟨k0, v0⟩ := hd
    by_cases h0 : k0 = k' <;> simp [setKey, getKey, h0, h, ih]

/-- Updating with the placeholder assigns exactly its two keys in order. -/
lemma updateDict_unable (d : List (String × JVal)) :
    updateDict d unable_to_decrypt =
      setKey (setKey d "type" (JVal.str "m.room.message")) "content"
        (JVal.obj
          [("msgtype", JVal.str "m.text"),
           ("body", JVal.str ("** Unable to decrypt: The sender's device has not " ++
                              "sent us the keys for this message. **"))]) := rfl

lemma parse_event_none_of_nonEnc (d : List (String × JVal))
    (h : typeIsEncrypted d = false) : parse_event d = none := by
  unfold typeIsEncrypted at h
  unfold parse_event
  cases hg : getKey d "type" with
  | none => rfl
  | some v =>
    rw [hg] at h
    cases v <;> simp_all [isEncryptedStr]

lemma pan_decrypt_event_nonEnc (decrypt : MegolmEv → DecryptOutcome)
    (d : List (String × JVal)) (rid : Option String) (ig : Bool)
    (h : typeIsEncrypted d = false) :
    pan_decrypt_event decrypt d rid ig = PanRes.ret false d := by
  unfold pan_decrypt_event
  rw [parse_event_none_of_nonEnc d h]

/-- C5: on a decryption-class error, `pan_decrypt_event` with
`ignore_failures` overwrites the payload with exactly the fixed placeholder
(type `m.room.message`, msgtype `m.text`, the fixed body text), returns
failure and does not set `decrypted`; without `ignore_failures` the error
propagates and the payload is not overwritten. -/
theorem C5_decrypt_failure_placeholder (decrypt : MegolmEv → DecryptOutcome)
    (d : List (String × JVal)) (rid : Option String) (ev : MegolmEv)
    (msg : String) (hp : parse_event d = some ev)
    (hd : decrypt (fill_room_id ev rid) = DecryptOutcome.err msg) :
    pan_decrypt_event decrypt d rid true =
      PanRes.ret false (updateDict d unable_to_decrypt) ∧
    getKey (updateDict d unable_to_decrypt) "type" =
      some (JVal.str "m.room.message") ∧
    getKey (updateDict d unable_to_decrypt) "content" =
      some (JVal.obj
        [("msgtype", JVal.str "m.text"),
         ("body", JVal.str "** Unable to decrypt: The sender's device has not sent us the keys for this message. **")]) ∧
    getKey (updateDict d unable_to_decrypt) "decrypted" = getKey d "decrypted" ∧
    pan_decrypt_event decrypt d rid false = PanRes.exn msg d := by
  refine ⟨?_, ?_, ?_, ?_, ?_⟩
  · simp [pan_decrypt_event, hp, hd]
  · rw [updateDict_unable]
    rw [getKey_setKey_ne _ _ (by decide), getKey_setKey_self]
  · rw [updateDict_unable, getKey_setKey_self]
    rfl
  · rw [updateDict_unable]
    rw [getKey_setKey_ne _ _ (by decide), getKey_setKey_ne _ _ (by decide)]
  · simp [pan_decrypt_event, hp, hd]

theorem C5_witness :
    pan_decrypt_event (fun _ => DecryptOutcome.err "failed to decrypt")
      [("type", JVal.str "m.room.encrypted"),
       ("sender", JVal.str "@alice:example.org"),
       ("content", JVal.obj
          [("algorithm", JVal.str "m.megolm.v1.aes-sha2"),
           ("sender_key", JVal.str "SENDERKEY"),
           ("session_id", JVal.str "SESSIONID"),
           ("device_id", JVal.str "DEVICEID"),
           ("ciphertext", JVal.str "AwgA...")])]
      (some "!room:example.org") false =
      PanRes.exn "failed to decrypt"
        [("type", JVal.str "m.room.encrypted"),
         ("sender", JVal.str "@alice:example.org"),
         ("content", JVal.obj
            [("algorithm", JVal.str "m.megolm.v1.aes-sha2"),
             ("sender_key", JVal.str "SENDERKEY"),
             ("session_id", JVal.str "SESSIONID"),
             ("device_id", JVal.str "DEVICEID"),
             ("ciphertext", JVal.str "AwgA...")])] :=
  (C5_decrypt_failure_placeholder (fun _ => DecryptOutcome.err "failed to decrypt")
    [("type", JVal.str "m.room.encrypted"),
     ("sender", JVal.str "@alice:example.org"),
     ("content", JVal.obj
        [("algorithm", JVal.str "m.megolm.v1.aes-sha2"),
         ("sender_key", JVal.str "SENDERKEY"),
         ("session_id", JVal.str "SESSIONID"),
         ("device_id", JVal.str "DEVICEID"),
         ("ciphertext", JVal.str "AwgA...")])]
    (some "!room:example.org")
    { sender := "@alice:example.org", device_id := "DEVICEID",
      session_id := "SESSIONID", room_id := none }
    "failed to decrypt" rfl rfl).2.2.2.2

/-- C10: `decrypt_sync_body` is partial in the body shape, raising `KeyError`
with the body untouched when the `rooms` key, or the `join` key below it, is
missing, while `decrypt_messages_body` returns a body without a `chunk` key
unchanged. -/
theorem C10_body_shape_partiality (decrypt : MegolmEv → DecryptOutcome)
    (rooms : List (String × RoomState)) (body : List (String × JVal))
    (ig : Bool) :
    (getKey body "rooms" = none →
      decrypt_sync_body decrypt rooms body ig = PanRes.exn "KeyError" body) ∧
    (∀ ro, getKey body "rooms" = some (JVal.obj ro) → getKey ro "join" = none →
      decrypt_sync_body decrypt rooms body ig = PanRes.exn "KeyError" body) ∧
    (getKey body "chunk" = none → decrypt_messages_body decrypt body = body) := by
  refine ⟨?_, ?_, ?_⟩
  · intro h
    simp [decrypt_sync_body, h]
  · intro ro h hj
    simp [decrypt_sync_body, h, hj]
  · intro h
    simp [decrypt_messages_body, h]

theorem C10_witness :
    decrypt_sync_body (fun _ => DecryptOutcome.err "e") []
      [("next_batch", JVal.str "s72594_4483_1934")] true =
      PanRes.exn "KeyError" [("next_batch", JVal.str "s72594_4483_1934")] ∧
    decrypt_messages_body (fun _ => DecryptOutcome.err "e")
      [("start", JVal.str "t47429-4392820_219380")] =
      [("start", JVal.str "t47429-4392820_219380")] :=
  ⟨(C10_body_shape_partiality (fun _ => DecryptOutcome.err "e") []
      [("next_batch", JVal.str "s72594_4483_1934")] true).1 rfl,
   (C10_body_shape_partiality (fun _ => DecryptOutcome.err "e") []
      [("start", JVal.str "t47429-4392820_219380")] true).2.2 rfl⟩

/-- C1: the outgoing-key-requests registry suppresses duplicate key
re-requests: an event whose session identifier is already registered spawns
nothing, and two undecryptable events with the same session identifier grow
the key-request task list by at most one task. -/
theorem C1_key_request_dedup (s : ReqState) (e1 e2 : MegolmEv)
    (h : e1.session_id = e2.session_id) :
    (e1.session_id ∈ s.outgoing_key_requests → undecrypted_event_cb s e1 = s) ∧
    (undecrypted_event_cb (undecrypted_event_cb s e1) e2).key_request_tasks.length ≤
      s.key_request_tasks.length + 1 := by
  constructor
  · intro hm
    unfold undecrypted_event_cb
    rw [if_pos hm]
  · by_cases hm : e1.session_id ∈ s.outgoing_key_requests
    · rw [show undecrypted_event_cb s e1 = s by
            unfold undecrypted_event_cb; rw [if_pos hm]]
      by_cases hm2 : e2.session_id ∈ s.outgoing_key_requests
      · rw [show undecrypted_event_cb s e2 = s by
              unfold undecrypted_event_cb; rw [if_pos hm2]]
        exact Nat.le_succ _
      · unfold undecrypted_event_cb
        rw [if_neg hm2]
        simp
    · have h1 : undecrypted_event_cb s e1 =
          { outgoing_key_requests := s.outgoing_key_requests ++ [e1.session_id],
            key_request_tasks := s.key_request_tasks ++ [e1] } := by
        unfold undecrypted_event_cb
        rw [if_neg hm]
      rw [h1]
      have h2 : e2.session_id ∈ s.outgoing_key_requests ++ [e1.session_id] := by
        rw [← h]
        simp
      unfold undecrypted_event_cb
      rw [if_pos h2]
      simp

theorem C1_witness :
    (undecrypted_event_cb
      (undecrypted_event_cb
        { outgoing_key_requests := [], key_request_tasks := [] }
        { sender := "@bob:example.org", device_id := "DEVB",
          session_id := "SESSX", room_id := some "!r:example.org" })
      { sender := "@bob:example.org", device_id := "DEVB",
        session_id := "SESSX", room_id := some "!r:example.org" }).key_request_tasks.length ≤
      ([] : List MegolmEv).length + 1 :=
  (C1_key_request_dedup
    { outgoing_key_requests := [], key_request_tasks := [] }
    { sender := "@bob:example.org", device_id := "DEVB",
      session_id := "SESSX", room_id := some "!r:example.org" }
    { sender := "@bob:example.org", device_id := "DEVB",
      session_id := "SESSX", room_id := some "!r:example.org" } rfl).2

/-- C8: on a missing-group-session error, `encrypt` shares the group session
and retries exactly once; the outcome of that single retry - success or
failure - is final and propagates, and a first success retries nothing. -/
theorem C8_encrypt_single_retry (first second : EncResult) :
    (∀ c, first = EncResult.ok c →
      encrypt first second =
        { shared_group_session := false, attempts := 1, result := EncResult.ok c }) ∧
    (first = EncResult.groupEncryptionError →
      (encrypt first second).shared_group_session = true ∧
      (encrypt first second).attempts = 2 ∧
      (encrypt first second).result = second) ∧
    (encrypt first second).attempts ≤ 2 := by
  cases first <;> simp [encrypt]

theorem C8_witness :
    (encrypt EncResult.groupEncryptionError EncResult.groupEncryptionError).shared_group_session = true ∧
    (encrypt EncResult.groupEncryptionError EncResult.groupEncryptionError).attempts = 2 ∧
    (encrypt EncResult.groupEncryptionError EncResult.groupEncryptionError).result =
      EncResult.groupEncryptionError :=
  (C8_encrypt_single_retry EncResult.groupEncryptionError
    EncResult.groupEncryptionError).2.1 rfl


/-- An event whose payload is not an encrypted room event passes through the
per-event step of `decrypt_messages_body` unchanged. -/
lemma decrypt_messages_chunk_cons_nonEnc (decrypt : MegolmEv → DecryptOutcome)
    (e : JVal) (rest : List JVal) (h : eventNonEncrypted e = true) :
    decrypt_messages_chunk decrypt (e :: rest) =
      e :: decrypt_messages_chunk decrypt rest := by
  cases e with
  | obj ed =>
    have h' : typeIsEncrypted ed = false := by
      simpa [eventNonEncrypted] using h
    cases hg : getKey ed "type" with
    | none => simp [decrypt_messages_chunk, hg]
    | some t =>
      have ht : isEncryptedStr t = false := by
        simpa [typeIsEncrypted, hg] using h'
      simp [decrypt_messages_chunk, hg, ht]
  | str s => rfl
  | bool b => rfl
  | num n => rfl
  | arr a => rfl

lemma decrypt_messages_chunk_get? (decrypt : MegolmEv → DecryptOutcome) :
    ∀ (evs : List JVal) (i : Nat) (e : JVal), evs.get? i = some e →
      eventNonEncrypted e = true →
      (decrypt_messages_chunk decrypt evs).get? i = some e := by
  intro evs
  induction evs with
  | nil => intro i e h _; cases i <;> simp [List.get?] at h
  | cons e0 rest ih =>
    intro i e h hne
    cases i with
    | zero =>
      have he : e0 = e := by
        have h0 : some e0 = some e := h
        injection h0
      subst he
      rw [decrypt_messages_chunk_cons_nonEnc decrypt e0 rest hne]
      rfl
    | succ n =>
      have hrest : rest.get? n = some e := h
      have hcons : ∃ x, decrypt_messages_chunk decrypt (e0 :: rest) =
          x :: decrypt_messages_chunk decrypt rest := ⟨_, rfl⟩
      obtain ⟨x, hx⟩ := hcons
      rw [hx]
      exact ih n e hrest hne

lemma eventNonEncrypted_obj_pan (decrypt : MegolmEv → DecryptOutcome)
    (ed : List (String × JVal)) (rid : Option String) (ig : Bool)
    (h : eventNonEncrypted (JVal.obj ed) = true) :
    pan_decrypt_event decrypt ed rid ig = PanRes.ret false ed := by
  have h' : typeIsEncrypted ed = false := by
    simpa [eventNonEncrypted] using h
  exact pan_decrypt_event_nonEnc decrypt ed rid ig h'

lemma decrypt_room_events_state_get? (decrypt : MegolmEv → DecryptOutcome)
    (rid : String) (ig : Bool) :
    ∀ (evs : List JVal) (i : Nat) (e : JVal), evs.get? i = some e →
      eventNonEncrypted e = true →
      (decrypt_room_events decrypt rid ig evs).state.get? i = some e := by
  intro evs
  induction evs with
  | nil => intro i e h _; cases i <;> simp [List.get?] at h
  | cons e0 rest ih =>
    intro i e h hne
    cases i with
    | zero =>
      have he : e0 = e := by
        have h0 : some e0 = some e := h
        injection h0
      subst he
      cases e0 with
      | obj ed =>
        have hpan := eventNonEncrypted_obj_pan decrypt ed (some rid) ig hne
        simp only [decrypt_room_events]
        rw [hpan]
        cases ht : decrypt_room_events decrypt rid ig rest <;>
          simp [PanRes.state]
      | str s =>
        simp only [decrypt_room_events]
        cases ht : decrypt_room_events decrypt rid ig rest <;>
          simp [PanRes.state]
      | bool b =>
        simp only [decrypt_room_events]
        cases ht : decrypt_room_events decrypt rid ig rest <;>
          simp [PanRes.state]
      | num m =>
        simp only [decrypt_room_events]
        cases ht : decrypt_room_events decrypt rid ig rest <;>
          simp [PanRes.state]
      | arr a =>
        simp only [decrypt_room_events]
        cases ht : decrypt_room_events decrypt rid ig rest <;>
          simp [PanRes.state]
    | succ n =>
      have hrest : rest.get? n = some e := h
      have hih := ih n e hrest hne
      cases e0 with
      | obj ed =>
        simp only [decrypt_room_events]
        cases hpan : pan_decrypt_event decrypt ed (some rid) ig with
        | ret b d =>
          cases ht : decrypt_room_events decrypt rid ig rest <;>
            rw [ht] at hih <;> simpa [PanRes.state] using hih
        | exn m d =>
          simpa [PanRes.state] using hrest
      | str s =>
        simp only [decrypt_room_events]
        cases ht : decrypt_room_events decrypt rid ig rest <;>
          rw [ht] at hih <;> simpa [PanRes.state] using hih
      | bool b =>
        simp only [decrypt_room_events]
        cases ht : decrypt_room_events decrypt rid ig rest <;>
          rw [ht] at hih <;> simpa [PanRes.state] using hih
      | num m =>
        simp only [decrypt_room_events]
        cases ht : decrypt_room_events decrypt rid ig rest <;>
          rw [ht] at hih <;> simpa [PanRes.state] using hih
      | arr a =>
        simp only [decrypt_room_events]
        cases ht : decrypt_room_events decrypt rid ig rest <;>
          rw [ht] at hih <;> simpa [PanRes.state] using hih

lemma sync_room_unknown (decrypt : MegolmEv → DecryptOutcome)
    (rooms : List (String × RoomState)) (ig : Bool) (rid : String) (rv : JVal)
    (h : lookupL rooms rid = none) :
    sync_room decrypt rooms ig rid rv = PanRes.ret () rv := by
  simp [sync_room, h]

/-- C9: the pipeline's frame conditions.  A non-encrypted event payload is
returned unchanged by `pan_decrypt_event`; the per-event pass of
`decrypt_messages_body` keeps every non-encrypted chunk entry in place
unchanged; inside `decrypt_sync_body` every non-encrypted timeline event of a
room is left unchanged (whether or not a later event raises); a room unknown
to the session is skipped without raising; and processing a joined-rooms list
headed by an unknown room passes that room through untouched and treats the
remaining rooms exactly as it would without it. -/
theorem C9_pipeline_frame (decrypt : MegolmEv → DecryptOutcome)
    (rooms : List (String × RoomState)) (ig : Bool) :
    (∀ d rid, typeIsEncrypted d = false →
      pan_decrypt_event decrypt d rid ig = PanRes.ret false d) ∧
    (∀ (evs : List JVal) (i : Nat) (e : JVal), evs.get? i = some e →
      eventNonEncrypted e = true →
      (decrypt_messages_chunk decrypt evs).get? i = some e) ∧
    (∀ (rid : String) (evs : List JVal) (i : Nat) (e : JVal),
      evs.get? i = some e → eventNonEncrypted e = true →
      (decrypt_room_events decrypt rid ig evs).state.get? i = some e) ∧
    (∀ (rid : String) (rv : JVal), lookupL rooms rid = none →
      sync_room decrypt rooms ig rid rv = PanRes.ret () rv) ∧
    (∀ (rid : String) (rv : JVal) (rest : List (String × JVal)),
      lookupL rooms rid = none →
      sync_rooms decrypt rooms ig ((rid, rv) :: rest) =
        match sync_rooms decrypt rooms ig rest with
        | PanRes.ret u r2 => PanRes.ret u ((rid, rv) :: r2)
        | PanRes.exn m r2 => PanRes.exn m ((rid, rv) :: r2)) := by
  refine ⟨?_, ?_, ?_, ?_, ?_⟩
  · intro d rid h
    exact pan_decrypt_event_nonEnc decrypt d rid ig h
  · exact decrypt_messages_chunk_get? decrypt
  · intro rid
    exact decrypt_room_events_state_get? decrypt rid ig
  · intro rid rv h
    exact sync_room_unknown decrypt rooms ig rid rv h
  · intro rid rv rest h
    simp only [sync_rooms]
    rw [sync_room_unknown decrypt rooms ig rid rv h]

theorem C9_witness :
    pan_decrypt_event (fun _ => DecryptOutcome.err "e")
      [("type", JVal.str "m.room.message"),
       ("content", JVal.obj [("body", JVal.str "hello")])] none true =
      PanRes.ret false
        [("type", JVal.str "m.room.message"),
         ("content", JVal.obj [("body", JVal.str "hello")])] ∧
    sync_room (fun _ => DecryptOutcome.err "e") [] true "!unknown:example.org"
      (JVal.obj [("timeline", JVal.obj [("events", JVal.arr [])])]) =
      PanRes.ret ()
        (JVal.obj [("timeline", JVal.obj [("events", JVal.arr [])])]) :=
  ⟨(C9_pipeline_frame (fun _ => DecryptOutcome.err "e") [] true).1
      [("type", JVal.str "m.room.message"),
       ("content", JVal.obj [("body", JVal.str "hello")])] none (by decide),
   (C9_pipeline_frame (fun _ => DecryptOutcome.err "e") [] true).2.2.2.1
      "!unknown:example.org"
      (JVal.obj [("timeline", JVal.obj [("events", JVal.arr [])])]) rfl⟩

lemma queryPhase_none_shape (env : SyncEnv) (acts : List Act) (s : LoopState) :
    ∃ tail : List Act, (Act.setSynced ∉ tail ∧ Act.clearSynced ∉ tail) ∧
      queryPhase env none acts s =
        ((acts ++ tail) ++ [Act.setSynced, Act.clearSynced], Ctl.cont,
         { s with synced := false }) := by
  by_cases hq : env.should_query_keys = true
  · by_cases hk : env.queryIsKeysQueryResponse = true
    · refine ⟨[Act.keysQuery, Act.verifyDevices, Act.queuePut],
        ⟨by decide, by decide⟩, ?_⟩
      simp [queryPhase, finishPhase, hq, hk, List.append_assoc]
    · refine ⟨[Act.keysQuery], ⟨by decide, by decide⟩, ?_⟩
      simp [queryPhase, finishPhase, hq, hk, List.append_assoc]
  · refine ⟨[], ⟨by decide, by decide⟩, ?_⟩
    simp [queryPhase, finishPhase, hq]

lemma uploadPhase_none_shape (env : SyncEnv) (acts : List Act) (s : LoopState) :
    ∃ tail : List Act, (Act.setSynced ∉ tail ∧ Act.clearSynced ∉ tail) ∧
      uploadPhase env none acts s =
        ((acts ++ tail) ++ [Act.setSynced, Act.clearSynced], Ctl.cont,
         { s with synced := false }) := by
  by_cases hu : env.should_upload_keys = true
  · obtain ⟨tail, ⟨h1, h2⟩, heq⟩ :=
      queryPhase_none_shape env (acts ++ [Act.keysUpload]) s
    refine ⟨Act.keysUpload :: tail, ⟨?_, ?_⟩, ?_⟩
    · simp [h1]
    · simp [h2]
    · have hstep : uploadPhase env none acts s =
          queryPhase env none (acts ++ [Act.keysUpload]) s := by
        simp [uploadPhase, hu]
      rw [hstep, heq]
      simp [List.append_assoc]
  · obtain ⟨tail, hmem, heq⟩ := queryPhase_none_shape env acts s
    refine ⟨tail, hmem, ?_⟩
    have hstep : uploadPhase env none acts s = queryPhase env none acts s := by
      simp [uploadPhase, hu]
    rw [hstep, heq]

/-- An uncancelled iteration whose sync succeeded with status 200 runs the
whole post-processing sequence, ends by setting and clearing the synced
signal, continues the loop, clears the verification task list and leaves the
key-request task list untouched. -/
lemma iteration_ok200_shape (env : SyncEnv) (s : LoopState)
    (h200 : env.syncResult = SyncResult.ok 200) :
    ∃ tail : List Act, (Act.setSynced ∉ tail ∧ Act.clearSynced ∉ tail) ∧
      iteration env none s =
        (([Act.syncCall, Act.sendToDeviceMessages,
           Act.gatherVerifTasks s.key_verificatins_tasks] ++
          (if env.verifGatherRaises then [Act.logProtocolError] else []) ++
          [Act.gatherKeyReqTasks s.key_request_tasks] ++ tail) ++
         [Act.setSynced, Act.clearSynced],
         Ctl.cont,
         { s with key_verificatins_tasks := [], synced := false }) := by
  obtain ⟨tail, hmem, heq⟩ := uploadPhase_none_shape env
    ([Act.syncCall, Act.sendToDeviceMessages,
      Act.gatherVerifTasks s.key_verificatins_tasks] ++
     (if env.verifGatherRaises then [Act.logProtocolError] else []) ++
     [Act.gatherKeyReqTasks s.key_request_tasks])
    { s with key_verificatins_tasks := [] }
  refine ⟨tail, hmem, ?_⟩
  have hstep : iteration env none s =
      uploadPhase env none
        ([Act.syncCall, Act.sendToDeviceMessages,
          Act.gatherVerifTasks s.key_verificatins_tasks] ++
         (if env.verifGatherRaises then [Act.logProtocolError] else []) ++
         [Act.gatherKeyReqTasks s.key_request_tasks])
        { s with key_verificatins_tasks := [] } := by
    simp [iteration, h200, List.append_assoc]
  rw [hstep, heq]

/-- C3: any transport fault of an iteration - a raised network exception or a
non-200 status - makes the iteration sleep 5 seconds and continue the loop
with the state unchanged, with no post-processing action performed. -/
theorem C3_transport_fault_backoff (env : SyncEnv) (s : LoopState)
    (h : transportFault env) :
    (iteration env none s).2.1 = Ctl.cont ∧
    (iteration env none s).2.2 = s ∧
    Act.sleepSecs 5 ∈ (iteration env none s).1 ∧
    (iteration env none s).1.filter isPostProcessing = [] := by
  rcases h with ⟨e, hsr⟩ | ⟨st, hsr, hne⟩
  · simp [iteration, hsr, isPostProcessing]
  · simp [iteration, hsr, hne, isPostProcessing]

theorem C3_witness :
    (iteration
      { syncResult := SyncResult.netFail NetErr.connRefused,
        verifGatherRaises := false, should_upload_keys := false,
        should_query_keys := false, queryIsKeysQueryResponse := false,
        responseIsSyncResponse := true } none
      { loop_running := true, loop_stopped := false, synced := false,
        key_verificatins_tasks := [], key_request_tasks := [] }).2.1 =
      Ctl.cont :=
  (C3_transport_fault_backoff _ _ (Or.inl ⟨NetErr.connRefused, rfl⟩)).1

/-- C4: a cancellation observed at any suspension point the iteration
reaches - the backoff sleeps included - breaks the loop with `loop_running`
false and the `loop_stopped` event set, after running `_loop_stop`; and
`loop_stop`, which awaits that event, can then return, while it can never
return (for a running task) in a state where the event has not fired. -/
theorem C4_cancellation_stops_loop (env : SyncEnv) (s : LoopState) (p : Susp)
    (hp : reaches env p = true) :
    (iteration env (some p) s).2.1 = Ctl.brk ∧
    (iteration env (some p) s).2.2.loop_running = false ∧
    (iteration env (some p) s).2.2.loop_stopped = true ∧
    Act.loopStopMark ∈ (iteration env (some p) s).1 ∧
    loop_stop_returns_in true (iteration env (some p) s).2.2 = true ∧
    (∀ t : LoopState, loop_stop_returns_in true t = true →
      t.loop_stopped = true) := by
  have hgen : ∀ t : LoopState, loop_stop_returns_in true t = true →
      t.loop_stopped = true := by
    intro t ht
    simpa [loop_stop_returns_in] using ht
  cases p with
  | atSync =>
    refine ⟨?_, ?_, ?_, ?_, ?_, hgen⟩ <;>
      simp [iteration, loop_stop_update, loop_stop_returns_in]
  | atBackoffSleep =>
    cases hsr : env.syncResult with
    | ok st => simp [reaches, hsr] at hp
    | netFail e =>
      refine ⟨?_, ?_, ?_, ?_, ?_, hgen⟩ <;>
        simp [iteration, hsr, loop_stop_update, loop_stop_returns_in]
  | atStatusSleep =>
    cases hsr : env.syncResult with
    | netFail e => simp [reaches, hsr] at hp
    | ok st =>
      simp only [reaches, hsr] at hp
      have hne : st ≠ 200 := by simpa using hp
      refine ⟨?_, ?_, ?_, ?_, ?_, hgen⟩ <;>
        simp [iteration, hsr, hne, loop_stop_update, loop_stop_returns_in]
  | atSendToDevice =>
    cases hsr : env.syncResult with
    | netFail e => simp [reaches, hsr] at hp
    | ok st =>
      simp only [reaches, hsr] at hp
      have h200 : st = 200 := by simpa using hp
      subst h200
      refine ⟨?_, ?_, ?_, ?_, ?_, hgen⟩ <;>
        simp [iteration, hsr, loop_stop_update, loop_stop_returns_in]
  | atGatherVerif =>
    cases hsr : env.syncResult with
    | netFail e => simp [reaches, hsr] at hp
    | ok st =>
      simp only [reaches, hsr] at hp
      have h200 : st = 200 := by simpa using hp
      subst h200
      refine ⟨?_, ?_, ?_, ?_, ?_, hgen⟩ <;>
        simp [iteration, hsr, loop_stop_update, loop_stop_returns_in]
  | atGatherKeyReq =>
    cases hsr : env.syncResult with
    | netFail e => simp [reaches, hsr] at hp
    | ok st =>
      simp only [reaches, hsr] at hp
      have h200 : st = 200 := by simpa using hp
      subst h200
      refine ⟨?_, ?_, ?_, ?_, ?_, hgen⟩ <;>
        simp [iteration, hsr, loop_stop_update, loop_stop_returns_in]
  | atKeysUpload =>
    cases hsr : env.syncResult with
    | netFail e => simp [reaches, hsr] at hp
    | ok st =>
      simp only [reaches, hsr, Bool.and_eq_true] at hp
      obtain ⟨h200b, hu⟩ := hp
      have h200 : st = 200 := by simpa using h200b
      subst h200
      refine ⟨?_, ?_, ?_, ?_, ?_, hgen⟩ <;>
        simp [iteration, uploadPhase, hsr, hu, loop_stop_update,
              loop_stop_returns_in]
  | atKeysQuery =>
    cases hsr : env.syncResult with
    | netFail e => simp [reaches, hsr] at hp
    | ok st =>
      simp only [reaches, hsr, Bool.and_eq_true] at hp
      obtain ⟨h200b, hq⟩ := hp
      have h200 : st = 200 := by simpa using h200b
      subst h200
      cases hu : env.should_upload_keys <;>
        refine ⟨?_, ?_, ?_, ?_, ?_, hgen⟩ <;>
          simp [iteration, uploadPhase, queryPhase, hsr, hu, hq,
                loop_stop_update, loop_stop_returns_in]
  | atQueuePut =>
    cases hsr : env.syncResult with
    | netFail e => simp [reaches, hsr] at hp
    | ok st =>
      simp only [reaches, hsr, Bool.and_eq_true] at hp
      obtain ⟨⟨h200b, hq⟩, hk⟩ := hp
      have h200 : st = 200 := by simpa using h200b
      subst h200
      cases hu : env.should_upload_keys <;>
        refine ⟨?_, ?_, ?_, ?_, ?_, hgen⟩ <;>
          simp [iteration, uploadPhase, queryPhase, hsr, hu, hq, hk,
                loop_stop_update, loop_stop_returns_in]

theorem C4_witness :
    (iteration
      { syncResult := SyncResult.ok 200, verifGatherRaises := false,
        should_upload_keys := false, should_query_keys := false,
        queryIsKeysQueryResponse := false, responseIsSyncResponse := true }
      (some Susp.atGatherVerif)
      { loop_running := true, loop_stopped := false, synced := false,
        key_verificatins_tasks := [], key_request_tasks := [] }).2.2.loop_stopped =
      true :=
  (C4_cancellation_stops_loop
    { syncResult := SyncResult.ok 200, verifGatherRaises := false,
      should_upload_keys := false, should_query_keys := false,
      queryIsKeysQueryResponse := false, responseIsSyncResponse := true }
    { loop_running := true, loop_stopped := false, synced := false,
      key_verificatins_tasks := [], key_request_tasks := [] }
    Susp.atGatherVerif rfl).2.2.1

/-- C6: an uncancelled iteration whose sync succeeded sets and then clears
the synced signal exactly once, as the last two operations of the iteration -
after all post-processing - while an iteration ending in a transport fault
never sets it. -/
theorem C6_synced_signal_edge (env : SyncEnv) (s : LoopState) :
    (env.syncResult = SyncResult.ok 200 →
      ∃ pre, (iteration env none s).1 = pre ++ [Act.setSynced, Act.clearSynced] ∧
        Act.setSynced ∉ pre ∧ Act.clearSynced ∉ pre) ∧
    (transportFault env → Act.setSynced ∉ (iteration env none s).1) := by
  constructor
  · intro h200
    obtain ⟨tail, ⟨h1, h2⟩, heq⟩ := iteration_ok200_shape env s h200
    rw [heq]
    refine ⟨[Act.syncCall, Act.sendToDeviceMessages,
             Act.gatherVerifTasks s.key_verificatins_tasks] ++
            (if env.verifGatherRaises then [Act.logProtocolError] else []) ++
            [Act.gatherKeyReqTasks s.key_request_tasks] ++ tail, rfl, ?_, ?_⟩
    · cases hvg : env.verifGatherRaises <;> simp [hvg, h1]
    · cases hvg : env.verifGatherRaises <;> simp [hvg, h2]
  · intro hf
    rcases hf with ⟨e, hsr⟩ | ⟨st, hsr, hne⟩
    · simp [iteration, hsr]
    · simp [iteration, hsr, hne]

theorem C6_witness :
    ∃ pre,
      (iteration
        { syncResult := SyncResult.ok 200, verifGatherRaises := false,
          should_upload_keys := true, should_query_keys := true,
          queryIsKeysQueryResponse := true, responseIsSyncResponse := true } none
        { loop_running := true, loop_stopped := false, synced := false,
          key_verificatins_tasks := [4], key_request_tasks := [9] }).1 =
        pre ++ [Act.setSynced, Act.clearSynced] ∧
      Act.setSynced ∉ pre ∧ Act.clearSynced ∉ pre :=
  (C6_synced_signal_edge _ _).1 rfl

/-- C7: on the success path the verification-task gather swallows a
protocol-state error - it is logged and the loop still continues - and the
verification task list is cleared whether or not the gather raised, while the
later key-request gather is still performed. -/
theorem C7_protocol_error_swallowed (env : SyncEnv) (s : LoopState)
    (h200 : env.syncResult = SyncResult.ok 200) :
    (iteration env none s).2.1 = Ctl.cont ∧
    (iteration env none s).2.2.key_verificatins_tasks = [] ∧
    (env.verifGatherRaises = true →
      Act.logProtocolError ∈ (iteration env none s).1) ∧
    Act.gatherKeyReqTasks s.key_request_tasks ∈ (iteration env none s).1 := by
  obtain ⟨tail, hmem, heq⟩ := iteration_ok200_shape env s h200
  rw [heq]
  refine ⟨rfl, rfl, ?_, ?_⟩
  · intro hvg
    simp [hvg]
  · simp

theorem C7_witness :
    (iteration
      { syncResult := SyncResult.ok 200, verifGatherRaises := true,
        should_upload_keys := false, should_query_keys := false,
        queryIsKeysQueryResponse := false, responseIsSyncResponse := true } none
      { loop_running := true, loop_stopped := false, synced := false,
        key_verificatins_tasks := [4, 5], key_request_tasks := [] }).2.2.key_verificatins_tasks =
      [] :=
  (C7_protocol_error_swallowed _ _ rfl).2.1

/-- C2 (amended): per successful cycle, both task lists are drained - the
verification tasks and the key-request tasks present at the start of the
cycle are each gathered - and the verification task list is cleared, so a
verification task is never awaited again; but the key-request task list is
left untouched by the cycle, so every key-request task remains in the list
after the cycle that awaited it. -/
theorem C2_task_drain_semantics (env : SyncEnv) (s : LoopState)
    (h200 : env.syncResult = SyncResult.ok 200) :
    Act.gatherVerifTasks s.key_verificatins_tasks ∈ (iteration env none s).1 ∧
    (iteration env none s).2.2.key_verificatins_tasks = [] ∧
    Act.gatherKeyReqTasks s.key_request_tasks ∈ (iteration env none s).1 ∧
    (iteration env none s).2.2.key_request_tasks = s.key_request_tasks := by
  obtain ⟨tail, hmem, heq⟩ := iteration_ok200_shape env s h200
  rw [heq]
  refine ⟨by simp, rfl, by simp, rfl⟩

theorem C2_witness :
    (iteration
      { syncResult := SyncResult.ok 200, verifGatherRaises := false,
        should_upload_keys := false, should_query_keys := false,
        queryIsKeysQueryResponse := false, responseIsSyncResponse := true } none
      { loop_running := true, loop_stopped := false, synced := false,
        key_verificatins_tasks := [3], key_request_tasks := [7] }).2.2.key_request_tasks =
      [7] :=
  (C2_task_drain_semantics
    { syncResult := SyncResult.ok 200, verifGatherRaises := false,
      should_upload_keys := false, should_query_keys := false,
      queryIsKeysQueryResponse := false, responseIsSyncResponse := true }
    { loop_running := true, loop_stopped := false, synced := false,
      key_verificatins_tasks := [3], key_request_tasks := [7] } rfl).2.2.2

/-- C2 counterexample: the key-request task list is never cleared by the
loop, so a single key-request task (task 7, spawned before the first cycle)
is still in the list after the first successful cycle and is gathered -
awaited - again by the second cycle: across two cycles it is awaited twice,
refuting the claim that each cycle clears both sets so that no spawned task
is ever awaited twice in later cycles. -/
theorem C2_counterexample :
    Act.gatherKeyReqTasks [7] ∈
      (iteration
        { syncResult := SyncResult.ok 200, verifGatherRaises := false,
          should_upload_keys := false, should_query_keys := false,
          queryIsKeysQueryResponse := false, responseIsSyncResponse := true } none
        { loop_running := true, loop_stopped := false, synced := false,
          key_verificatins_tasks := [], key_request_tasks := [7] }).1 ∧
    (iteration
      { syncResult := SyncResult.ok 200, verifGatherRaises := false,
        should_upload_keys := false, should_query_keys := false,
        queryIsKeysQueryResponse := false, responseIsSyncResponse := true } none
      { loop_running := true, loop_stopped := false, synced := false,
        key_verificatins_tasks := [], key_request_tasks := [7] }).2.2.key_request_tasks =
      [7] ∧
    Act.gatherKeyReqTasks [7] ∈
      (iteration
        { syncResult := SyncResult.ok 200, verifGatherRaises := false,
          should_upload_keys := false, should_query_keys := false,
          queryIsKeysQueryResponse := false, responseIsSyncResponse := true } none
        (iteration
          { syncResult := SyncResult.ok 200, verifGatherRaises := false,
            should_upload_keys := false, should_query_keys := false,
            queryIsKeysQueryResponse := false, responseIsSyncResponse := true } none
          { loop_running := true, loop_stopped := false, synced := false,
            key_verificatins_tasks := [], key_request_tasks := [7] }).2.2).1 ∧
    krAwaited
      ((iteration
        { syncResult := SyncResult.ok 200, verifGatherRaises := false,
          should_upload_keys := false, should_query_keys := false,
          queryIsKeysQueryResponse := false, responseIsSyncResponse := true } none
        { loop_running := true, loop_stopped := false, synced := false,
          key_verificatins_tasks := [], key_request_tasks := [7] }).1 ++
       (iteration
        { syncResult := SyncResult.ok 200, verifGatherRaises := false,
          should_upload_keys := false, should_query_keys := false,
          queryIsKeysQueryResponse := false, responseIsSyncResponse := true } none
        (iteration
          { syncResult := SyncResult.ok 200, verifGatherRaises := false,
            should_upload_keys := false, should_query_keys := false,
            queryIsKeysQueryResponse := false, responseIsSyncResponse := true } none
          { loop_running := true, loop_stopped := false, synced := false,
            key_verificatins_tasks := [], key_request_tasks := [7] }).2.2).1) =
      [7, 7] := by
  decide
